import Mathlib

/-!
Shallow embedding of the country lookup service of the gotogether-api
repository (`src/countries/countries.service.ts`) together with the
countries controller, and proofs about the claims of its specification.

The service is a cache-aside wrapper around a relational store with a
fixed in-memory fallback table used when the store is disconnected.  We
model:
  * JS string primitives (`toLowerCase`, `toUpperCase`, `includes`) on
    ASCII the way V8 implements them for the data at hand;
  * the cache as a partial map from key strings to typed values,
    operations additionally return the list of keys they wrote with
    `set` (the write log) so that frame claims can be stated;
  * the Prisma store as an explicit list of rows; `findMany` with
    `orderBy: \x7b name: asc \x7d` is modelled by a stable sort,
    `count`/`findFirst`/`groupBy` by the corresponding list operations;
  * `JSON.stringify` on the (flat) objects the service serializes for
    its cache keys, keeping the JS property-insertion order explicit;
  * thrown `NotFoundException`s by an `Except` result.
-/

/-- JS `String.prototype.toLowerCase` (the data involved is ASCII;
`Char.toLower` lowercases exactly the basic latin letters). -/
def strLower (s : String) : String := ⟨s.data.map Char.toLower⟩

/-- JS `String.prototype.toUpperCase` (ASCII, as above). -/
def strUpper (s : String) : String := ⟨s.data.map Char.toUpper⟩

/-- `n` is a prefix of `h` (character lists). -/
def charsStartsWith : List Char → List Char → Bool
  | [], _ => true
  | _ :: _, [] => false
  | a :: n, b :: h => a == b && charsStartsWith n h

/-- `n` occurs as a contiguous run inside `h`. -/
def charsContains (h n : List Char) : Bool :=
  match h with
  | [] => charsStartsWith n []
  | c :: t => charsStartsWith n (c :: t) || charsContains t n

/-- JS `String.prototype.includes`: `strIncludes h n` is true iff `n`
is a substring of `h`. -/
def strIncludes (h n : String) : Bool := charsContains h.data n.data

/-- JS truthiness of a `string | undefined` value: `undefined` and the
empty string are falsy, every other string is truthy.  This is the test
performed by the `if (continent)` / `if (region)` / `if (search)`
guards in the service. -/
def isTruthy : Option String → Bool
  | none => false
  | some s => !s.isEmpty

/-- Lexicographic order on character lists (the collation under which
the store's `orderBy name asc` and JS `localeCompare` agree on the
ASCII names involved). -/
def charsLe : List Char → List Char → Bool
  | [], _ => true
  | _ :: _, [] => false
  | a :: s, b :: t => a < b || (a == b && charsLe s t)

/-- Lexicographic string order (see `charsLe`). -/
def strLe (a b : String) : Bool := charsLe a.data b.data

/-- Math.ceil(a / b) for natural `a` and positive natural `b`, as the
service computes `totalPages`. -/
def jsCeilDiv (a b : Nat) : Nat := (a + b - 1) / b

/-- JS `Array.prototype.slice(s, e)` (non-negative indices). -/
def jsSlice {α : Type} (l : List α) (s e : Nat) : List α :=
  (l.drop s).take (e - s)

/-- The `CountryDto` shape (`src/common/dto/country.dto`), which is also
the shape of a `country` row as consumed by `transformToDto`.
Coordinates are exact decimals; we model them as integers in
ten-thousandths of a degree (every literal in the source has at most
four decimal places). -/
structure CountryDto where
  code : String
  code3 : String
  name : String
  officialName : String
  capital : String
  continent : String
  region : String
  languages : List String
  currencies : List String
  callingCodes : List String
  isPopularDestination : Bool
  flag : String
  latitude : Int
  longitude : Int
deriving DecidableEq, Repr

/-- `CountryFilters` from the service: all three fields optional. -/
structure CountryFilters where
  continent : Option String
  region : Option String
  search : Option String
deriving DecidableEq, Repr

/-- `PaginationOptions` from the service.  The service's `PageRequest`
invariant (spec §3) is that page and limit are positive integers; we
model them as naturals and state theorems under positivity where the
value matters. -/
structure PaginationOptions where
  page : Nat
  limit : Nat
deriving DecidableEq, Repr

/-- `PaginationMetaDto` from `base-response.dto`. -/
structure PaginationMetaDto where
  page : Nat
  limit : Nat
  total : Nat
  totalPages : Nat
  hasNext : Bool
  hasPrev : Bool
deriving DecidableEq, Repr

/-- `PaginatedResponseDto<CountryDto>`. -/
structure PaginatedResponseDto where
  success : Bool
  message : String
  timestamp : String
  meta : PaginationMetaDto
  data : List CountryDto
deriving DecidableEq, Repr

/-- One `\x7b name, countryCount \x7d` entry of the continents data. -/
structure ContinentCount where
  name : String
  countryCount : Nat
deriving DecidableEq, Repr

/-- The envelope returned by `getContinents`. -/
structure ContinentsResponse where
  success : Bool
  message : String
  timestamp : String
  data : List ContinentCount
deriving DecidableEq, Repr

/-- A thrown `NotFoundException`, carrying the offending code. -/
inductive LookupError where
  | notFound (code : String)
deriving DecidableEq, Repr

/-- The values the service stores in the cache manager. -/
inductive CacheVal where
  | page (r : PaginatedResponseDto)
  | dto (d : CountryDto)
  | continents (l : List ContinentCount)
  | countries (l : List CountryDto)
deriving DecidableEq, Repr

/-- The cache manager contents: a partial map from keys to values. -/
def Cache : Type := String → Option CacheVal

/-- `cacheManager.set key v` (the TTL does not influence any claim). -/
def cacheSet (c : Cache) (k : String) (v : CacheVal) : Cache :=
  fun q => if q = k then some v else c q

/-- `cacheManager.del key`. -/
def cacheDel (c : Cache) (k : String) : Cache :=
  fun q => if q = k then none else c q

/-- Read a cached `PaginatedResponseDto` (the generic type argument of
`cacheManager.get` in the source). -/
def asPage : Option CacheVal → Option PaginatedResponseDto
  | some (.page r) => some r
  | _ => none

/-- Read a cached `CountryDto`. -/
def asDto : Option CacheVal → Option CountryDto
  | some (.dto d) => some d
  | _ => none

/-- Read a cached continents list. -/
def asContinents : Option CacheVal → Option (List ContinentCount)
  | some (.continents l) => some l
  | _ => none

/-- `CACHE_KEYS.ALL_COUNTRIES`. -/
def ALL_COUNTRIES_KEY : String := "countries:all"

/-- `CACHE_KEYS.COUNTRY_BY_CODE` (a key prefix). -/
def COUNTRY_BY_CODE : String := "country:code:"

/-- `CACHE_KEYS.CONTINENTS`. -/
def CONTINENTS_KEY : String := "countries:continents"

/-- `CACHE_KEYS.POPULAR_COUNTRIES`. -/
def POPULAR_COUNTRIES_KEY : String := "countries:popular"

/-! ### `JSON.stringify` on the flat objects serialized into cache keys

A JS object is an ordered list of property/value pairs (property
insertion order is observable and `JSON.stringify` follows it).  The
objects the service serializes (`filters` and `pagination`) are flat:
their values are strings, numbers or `undefined`. -/

/-- A JS property value as it occurs in the serialized objects. -/
inductive JsVal where
  | undef
  | str (s : String)
  | num (n : Nat)
deriving DecidableEq, Repr

/-- A flat JS object: properties in insertion order. -/
abbrev JsObj : Type := List (String × JsVal)

/-- A JSON string literal. -/
def jsonStr (s : String) : String := "\"" ++ s ++ "\""

/-- `JSON.stringify` of a scalar property value; `none` for `undefined`
(such properties are omitted from the enclosing object). -/
def jsAtom : JsVal → Option String
  | .undef => none
  | .str s => some (jsonStr s)
  | .num n => some (toString n)

/-- `JSON.stringify` of a flat object: properties in insertion order,
`undefined`-valued properties omitted. -/
def stringifyObj (o : JsObj) : String :=
  "\x7b" ++ String.intercalate ","
    (o.filterMap (fun p => (jsAtom p.2).map (fun v => jsonStr p.1 ++ ":" ++ v)))
    ++ "\x7d"

/-- `JSON.stringify(\x7b filters, pagination \x7d)`: a two-property
object whose values are the two given flat objects. -/
def stringifyFilterPagination (filters pagination : JsObj) : String :=
  "\x7b" ++ jsonStr "filters" ++ ":" ++ stringifyObj filters ++ ","
    ++ jsonStr "pagination" ++ ":" ++ stringifyObj pagination ++ "\x7d"

/-- The cache key of line 48 of the service, as a function of the two
JS objects involved:
`countries:filtered:` ++ `JSON.stringify(\x7b filters, pagination \x7d)`. -/
def filteredCacheKey (filters pagination : JsObj) : String :=
  "countries:filtered:" ++ stringifyFilterPagination filters pagination

/-- A property value for an optional string (absent ↦ `undefined`). -/
def jsOptStr : Option String → JsVal
  | none => .undef
  | some s => .str s

/-- The `filters` object with its properties in the declaration order of
the `CountryFilters` interface (continent, region, search) — the order
in which every construction site in the repository sets them. -/
def filtersToObj (f : CountryFilters) : JsObj :=
  [("continent", jsOptStr f.continent), ("region", jsOptStr f.region),
   ("search", jsOptStr f.search)]

/-- The `pagination` object (page, limit — the declaration order of
`PaginationOptions`). -/
def paginationToObj (p : PaginationOptions) : JsObj :=
  [("page", .num p.page), ("limit", .num p.limit)]

/-- The string value of property `k` of object `o` (absent or
non-string properties read as `undefined`). -/
def objGetStr (o : JsObj) (k : String) : Option String :=
  match o.find? (fun p => p.1 == k) with
  | some (_, .str s) => some s
  | _ => none

/-- The `CountryFilters` value a `filters` object denotes: the logical
content of the object, independent of property order. -/
def objToFilters (o : JsObj) : CountryFilters :=
  ⟨objGetStr o "continent", objGetStr o "region", objGetStr o "search"⟩

/-- The cache key `getCountries` computes for a `CountryFilters` record
and a `PaginationOptions` record (properties in declaration order). -/
def countriesCacheKey (f : CountryFilters) (p : PaginationOptions) : String :=
  filteredCacheKey (filtersToObj f) (paginationToObj p)

/-! ### The fallback dataset (`getFallbackCountryData`) -/

/-- Seed record 1 of `getFallbackCountryData`. -/
def unitedStates : CountryDto :=
  { code := "US", code3 := "USA", name := "United States",
    officialName := "United States of America",
    capital := "Washington, D.C.", continent := "North America",
    region := "Northern America", languages := ["English"],
    currencies := ["USD"], callingCodes := ["+1"],
    isPopularDestination := true, flag := "🇺🇸",
    latitude := 398283, longitude := -985795 }

/-- Seed record 2. -/
def canada : CountryDto :=
  { code := "CA", code3 := "CAN", name := "Canada",
    officialName := "Canada", capital := "Ottawa",
    continent := "North America", region := "Northern America",
    languages := ["English", "French"], currencies := ["CAD"],
    callingCodes := ["+1"], isPopularDestination := true,
    flag := "🇨🇦", latitude := 561304, longitude := -1063468 }

/-- Seed record 3. -/
def unitedKingdom : CountryDto :=
  { code := "GB", code3 := "GBR", name := "United Kingdom",
    officialName := "United Kingdom of Great Britain and Northern Ireland",
    capital := "London", continent := "Europe",
    region := "Northern Europe", languages := ["English"],
    currencies := ["GBP"], callingCodes := ["+44"],
    isPopularDestination := true, flag := "🇬🇧",
    latitude := 553781, longitude := -34360 }

/-- Seed record 4. -/
def france : CountryDto :=
  { code := "FR", code3 := "FRA", name := "France",
    officialName := "French Republic", capital := "Paris",
    continent := "Europe", region := "Western Europe",
    languages := ["French"], currencies := ["EUR"],
    callingCodes := ["+33"], isPopularDestination := true,
    flag := "🇫🇷", latitude := 462276, longitude := 22137 }

/-- Seed record 5. -/
def germany : CountryDto :=
  { code := "DE", code3 := "DEU", name := "Germany",
    officialName := "Federal Republic of Germany", capital := "Berlin",
    continent := "Europe", region := "Western Europe",
    languages := ["German"], currencies := ["EUR"],
    callingCodes := ["+49"], isPopularDestination := true,
    flag := "🇩🇪", latitude := 511657, longitude := 104515 }

/-- Seed record 6. -/
def japan : CountryDto :=
  { code := "JP", code3 := "JPN", name := "Japan",
    officialName := "Japan", capital := "Tokyo", continent := "Asia",
    region := "Eastern Asia", languages := ["Japanese"],
    currencies := ["JPY"], callingCodes := ["+81"],
    isPopularDestination := true, flag := "🇯🇵",
    latitude := 362048, longitude := 1382529 }

/-- Seed record 7. -/
def australia : CountryDto :=
  { code := "AU", code3 := "AUS", name := "Australia",
    officialName := "Commonwealth of Australia", capital := "Canberra",
    continent := "Oceania", region := "Australia and New Zealand",
    languages := ["English"], currencies := ["AUD"],
    callingCodes := ["+61"], isPopularDestination := true,
    flag := "🇦🇺", latitude := -252744, longitude := 1337751 }

/-- `getFallbackCountryData`: the fixed seed table, in source order. -/
def getFallbackCountryData : List CountryDto :=
  [unitedStates, canada, unitedKingdom, france, germany, japan, australia]

/-! ### The service operations

Each operation takes the connectivity probe value
(`prisma.isDbConnected()`), the store contents (a list of rows), the
current timestamp string (`new Date().toISOString()`), and the cache
contents; it returns its result together with the new cache contents
and the list of keys it passed to `cacheManager.set`. -/

/-- `transformToDto`: field-by-field projection of a row to the DTO. -/
def transformToDto (country : CountryDto) : CountryDto :=
  { code := country.code, code3 := country.code3, name := country.name,
    officialName := country.officialName, capital := country.capital,
    continent := country.continent, region := country.region,
    languages := country.languages, currencies := country.currencies,
    callingCodes := country.callingCodes,
    isPopularDestination := country.isPopularDestination,
    flag := country.flag, latitude := country.latitude,
    longitude := country.longitude }

/-- The `where` predicate `getCountries` builds for Prisma: one
conjunct per truthy filter field (continent exact, region substring,
search an OR across name/code/code3, all case-insensitive). -/
def matchesWhere (filters : CountryFilters) (c : CountryDto) : Bool :=
  (if isTruthy filters.continent then
      strLower c.continent == strLower (filters.continent.getD "")
    else true) &&
  (if isTruthy filters.region then
      strIncludes (strLower c.region) (strLower (filters.region.getD ""))
    else true) &&
  (if isTruthy filters.search then
      (strIncludes (strLower c.name) (strLower (filters.search.getD "")) ||
       strIncludes (strLower c.code) (strLower (filters.search.getD "")) ||
       strIncludes (strLower c.code3) (strLower (filters.search.getD "")))
    else true)

/-- The store's `orderBy: \x7b name: asc \x7d` — a stable sort by the
`name` column. -/
def sortByName (l : List CountryDto) : List CountryDto :=
  List.insertionSort (fun a b => strLe a.name b.name = true) l

/-- The `filteredCountries` list of `getFallbackCountries`: the seed
table after the three sequential in-memory filters (same guards as the
`where` builder).  Note: no sorting happens on this path, so the list
stays in seed-table order. -/
def fallbackFiltered (filters : CountryFilters) : List CountryDto :=
  let l1 := if isTruthy filters.continent then
      getFallbackCountryData.filter (fun country =>
        strLower country.continent == strLower (filters.continent.getD ""))
    else getFallbackCountryData
  let l2 := if isTruthy filters.region then
      l1.filter (fun country =>
        strIncludes (strLower country.region) (strLower (filters.region.getD "")))
    else l1
  if isTruthy filters.search then
      l2.filter (fun country =>
        strIncludes (strLower country.name) (strLower (filters.search.getD "")) ||
        strIncludes (strLower country.code) (strLower (filters.search.getD "")) ||
        strIncludes (strLower country.code3) (strLower (filters.search.getD "")))
    else l2

/-- `getFallbackCountries`: filter the seed table in memory, then
paginate with `slice(startIndex, endIndex)`. -/
def getFallbackCountries (now : String) (filters : CountryFilters)
    (pagination : PaginationOptions) : PaginatedResponseDto :=
  let filteredCountries := fallbackFiltered filters
  let total := filteredCountries.length
  let totalPages := jsCeilDiv total pagination.limit
  let startIndex := (pagination.page - 1) * pagination.limit
  let endIndex := startIndex + pagination.limit
  let paginatedCountries := jsSlice filteredCountries startIndex endIndex
  { success := true,
    message := "Countries retrieved successfully (fallback data)",
    timestamp := now,
    meta := { page := pagination.page, limit := pagination.limit,
              total := total, totalPages := totalPages,
              hasNext := decide (pagination.page < totalPages),
              hasPrev := decide (1 < pagination.page) },
    data := paginatedCountries }

/-- `getCountries`: fallback when disconnected; otherwise cache-aside
around a count + sorted paginated fetch with the built predicate. -/
def getCountries (connected : Bool) (db : List CountryDto) (now : String)
    (filters : CountryFilters) (pagination : PaginationOptions)
    (cache : Cache) : PaginatedResponseDto × Cache × List String :=
  if !connected then
    (getFallbackCountries now filters pagination, cache, [])
  else
    let cacheKey := countriesCacheKey filters pagination
    match asPage (cache cacheKey) with
    | some cached => (cached, cache, [])
    | none =>
      let matching := db.filter (matchesWhere filters)
      let total := matching.length
      let countries :=
        ((sortByName matching).drop ((pagination.page - 1) * pagination.limit)).take
          pagination.limit
      let countryDtos := countries.map transformToDto
      let totalPages := jsCeilDiv total pagination.limit
      let result : PaginatedResponseDto :=
        { success := true, message := "Countries retrieved successfully",
          timestamp := now,
          meta := { page := pagination.page, limit := pagination.limit,
                    total := total, totalPages := totalPages,
                    hasNext := decide (pagination.page < totalPages),
                    hasPrev := decide (1 < pagination.page) },
          data := countryDtos }
      (result, cacheSet cache cacheKey (.page result), [cacheKey])

/-- `getFallbackCountryByCode`: first seed record whose code or code3
matches case-insensitively; `NotFoundException` otherwise. -/
def getFallbackCountryByCode (code : String) : Except LookupError CountryDto :=
  match getFallbackCountryData.find? (fun c =>
      strLower c.code == strLower code || strLower c.code3 == strLower code) with
  | some country => .ok country
  | none => .error (.notFound code)

/-- `getCountryByCode`: cache-first under `country:code:<CODE>` (code
uppercased); then fallback if disconnected; else `findFirst` on an OR of
the two code columns compared case-insensitively against the uppercased
code, `NotFoundException` when no row matches, cache + return. -/
def getCountryByCode (connected : Bool) (db : List CountryDto)
    (code : String) (cache : Cache) :
    Except LookupError CountryDto × Cache × List String :=
  let cacheKey := COUNTRY_BY_CODE ++ strUpper code
  match asDto (cache cacheKey) with
  | some cached => (.ok cached, cache, [])
  | none =>
    if !connected then (getFallbackCountryByCode code, cache, [])
    else
      match db.find? (fun c =>
          strLower c.code == strLower (strUpper code) ||
          strLower c.code3 == strLower (strUpper code)) with
      | none => (.error (.notFound code), cache, [])
      | some country =>
        let countryDto := transformToDto country
        (.ok countryDto, cacheSet cache cacheKey (.dto countryDto), [cacheKey])

/-- One step of the `Map`-building `forEach` of `getFallbackContinents`:
`map.set(continent, (map.get(continent) || 0) + 1)`, preserving the
JS `Map` insertion order. -/
def bumpContinent (m : List (String × Nat)) (k : String) : List (String × Nat) :=
  match m.find? (fun p => p.1 == k) with
  | some _ => m.map (fun p => if p.1 == k then (p.1, p.2 + 1) else p)
  | none => m ++ [(k, 1)]

/-- `getFallbackContinents`: count seed records per continent in a Map,
then sort the entries by name (`localeCompare` on these ASCII names is
the ordinary lexicographic order; JS `sort` is stable). -/
def getFallbackContinents (now : String) : ContinentsResponse :=
  let continentCounts :=
    getFallbackCountryData.foldl (fun m country => bumpContinent m country.continent)
      ([] : List (String × Nat))
  let continentData :=
    List.insertionSort (fun a b => strLe a.name b.name = true)
      (continentCounts.map (fun p => ContinentCount.mk p.1 p.2))
  { success := true,
    message := "Continents retrieved successfully (fallback data)",
    timestamp := now, data := continentData }

/-- The store's `groupBy continent` with `_count` and
`orderBy: continent asc`: the distinct continent values, sorted, each
with the number of rows carrying it. -/
def groupByContinentAsc (db : List CountryDto) : List ContinentCount :=
  (List.insertionSort (fun a b => strLe a b = true) (db.map (fun c => c.continent)).dedup).map
    (fun n => ContinentCount.mk n (db.filter (fun c => c.continent == n)).length)

/-- `getContinents`: cache-first under the fixed continents key; then
fallback if disconnected; else grouped count, cache + return. -/
def getContinents (connected : Bool) (db : List CountryDto) (now : String)
    (cache : Cache) : ContinentsResponse × Cache × List String :=
  match asContinents (cache CONTINENTS_KEY) with
  | some cached =>
    ({ success := true, message := "Continents retrieved successfully",
       timestamp := now, data := cached }, cache, [])
  | none =>
    if !connected then (getFallbackContinents now, cache, [])
    else
      let continentData := groupByContinentAsc db
      ({ success := true, message := "Continents retrieved successfully",
         timestamp := now, data := continentData },
       cacheSet cache CONTINENTS_KEY (.continents continentData),
       [CONTINENTS_KEY])

/-- `invalidateCache`: delete the three fixed aggregate keys (the
`Promise.all` order is immaterial, deletions commute). -/
def invalidateCache (cache : Cache) : Cache :=
  cacheDel (cacheDel (cacheDel cache ALL_COUNTRIES_KEY) CONTINENTS_KEY)
    POPULAR_COUNTRIES_KEY

/-- `CountriesController.getCountries` (the `GET /countries` handler):
forwards only `continent` and `search` into the filters object — the
object literal `\x7b continent, search \x7d` has no `region` property,
which as a `CountryFilters` value means `region = none` (and
`JSON.stringify` serializes both identically). -/
def controllerGetCountries (connected : Bool) (db : List CountryDto)
    (now : String) (page limit : Nat) (continent search : Option String)
    (cache : Cache) : PaginatedResponseDto × Cache × List String :=
  getCountries connected db now
    { continent := continent, region := none, search := search }
    { page := page, limit := limit } cache

instance : DecidableEq (Except LookupError CountryDto) := fun x y =>
  match x, y with
  | .ok a, .ok b =>
    if h : a = b then isTrue (by rw [h])
    else isFalse (fun hh => h (Except.ok.inj hh))
  | .error a, .error b =>
    if h : a = b then isTrue (by rw [h])
    else isFalse (fun hh => h (Except.error.inj hh))
  | .ok _, .error _ => isFalse (fun hh => Except.noConfusion hh)
  | .error _, .ok _ => isFalse (fun hh => Except.noConfusion hh)

/-! ### Supporting lemmas -/

theorem char_toNat_ofNat_valid {n : Nat} (h : n.isValidChar) : (Char.ofNat n).toNat = n := by
  unfold Char.ofNat
  rw [dif_pos h]
  rfl

/-- Lowercasing after uppercasing is just lowercasing (`Char.toUpper`
and `Char.toLower` act on the basic latin range only). -/
theorem char_toLower_toUpper (c : Char) : c.toUpper.toLower = c.toLower := by
  unfold Char.toUpper Char.toLower
  by_cases h : c.toNat ≥ 97 ∧ c.toNat ≤ 122
  · rw [if_pos h]
    have hv : Nat.isValidChar (c.toNat - 32) := Or.inl (by omega)
    rw [char_toNat_ofNat_valid hv]
    rw [if_pos (by omega : c.toNat - 32 ≥ 65 ∧ c.toNat - 32 ≤ 90)]
    rw [if_neg (by omega : ¬(c.toNat ≥ 65 ∧ c.toNat ≤ 90))]
    have : c.toNat - 32 + 32 = c.toNat := by omega
    rw [this, Char.ofNat_toNat]
  · rw [if_neg h]

/-- `s.toUpperCase().toLowerCase() === s.toLowerCase()`. -/
theorem strLower_strUpper (s : String) : strLower (strUpper s) = strLower s := by
  unfold strLower strUpper
  simp only [List.map_map]
  rw [show Char.toLower ∘ Char.toUpper = Char.toLower from funext char_toLower_toUpper]

theorem charsLe_total : ∀ s t : List Char, charsLe s t = true ∨ charsLe t s = true
  | [], _ => Or.inl rfl
  | _ :: _, [] => Or.inr rfl
  | a :: s, b :: t => by
    rcases lt_trichotomy a b with h | h | h
    · left; simp [charsLe, h]
    · subst h
      rcases charsLe_total s t with hs | hs
      · left; simp [charsLe, hs]
      · right; simp [charsLe, hs]
    · right; simp [charsLe, h]

theorem charsLe_trans : ∀ s t u : List Char,
    charsLe s t = true → charsLe t u = true → charsLe s u = true
  | [], _, _, _, _ => rfl
  | _ :: _, [], _, h, _ => by cases h
  | _ :: _, _ :: _, [], _, h => by cases h
  | a :: s, b :: t, c :: u, h1, h2 => by
    simp only [charsLe, Bool.or_eq_true, Bool.and_eq_true, decide_eq_true_eq,
      beq_iff_eq] at h1 h2 ⊢
    rcases h1 with h1 | ⟨rfl, h1⟩
    · rcases h2 with h2 | ⟨rfl, h2⟩
      · exact Or.inl (lt_trans h1 h2)
      · exact Or.inl h1
    · rcases h2 with h2 | ⟨rfl, h2⟩
      · exact Or.inl h2
      · exact Or.inr ⟨rfl, charsLe_trans _ _ _ h1 h2⟩

instance : IsTotal CountryDto (fun a b => strLe a.name b.name = true) :=
  ⟨fun a b => charsLe_total a.name.data b.name.data⟩

instance : IsTrans CountryDto (fun a b => strLe a.name b.name = true) :=
  ⟨fun a b c => charsLe_trans a.name.data b.name.data c.name.data⟩

instance : IsTotal ContinentCount (fun a b => strLe a.name b.name = true) :=
  ⟨fun a b => charsLe_total a.name.data b.name.data⟩

instance : IsTrans ContinentCount (fun a b => strLe a.name b.name = true) :=
  ⟨fun a b c => charsLe_trans a.name.data b.name.data c.name.data⟩

instance : IsTotal String (fun a b => strLe a b = true) :=
  ⟨fun a b => charsLe_total a.data b.data⟩

instance : IsTrans String (fun a b => strLe a b = true) :=
  ⟨fun a b c => charsLe_trans a.data b.data c.data⟩

/-- `find?` returns `a` when `a` occurs in `l`, satisfies the
predicate, and is the only element of `l` satisfying it. -/
theorem find?_eq_some_of_unique {α : Type} {p : α → Bool} {a : α} :
    ∀ {l : List α}, a ∈ l → p a = true → (∀ x ∈ l, p x = true → x = a) →
      l.find? p = some a
  | [], ha, _, _ => absurd ha (List.not_mem_nil a)
  | b :: t, ha, hpa, uniq => by
    by_cases hb : p b = true
    · rw [List.find?_cons_of_pos _ hb, uniq b (List.mem_cons_self b t) hb]
    · rw [List.find?_cons_of_neg _ hb]
      rcases List.mem_cons.mp ha with rfl | hat
      · exact absurd hpa hb
      · exact find?_eq_some_of_unique hat hpa
          (fun x hx hpx => uniq x (List.mem_cons_of_mem _ hx) hpx)

/-- `transformToDto` copies every field, so it is the identity on the
modelled row shape. -/
theorem transformToDto_eq (c : CountryDto) : transformToDto c = c := rfl

/-- Internal consistency of a `PaginatedResponseDto`, as §8 of the spec
states it: `data` fits in a page, `totalPages` is the ceiling of
`total / limit`, and the two navigation flags agree with the page
number. -/
def metaConsistent (r : PaginatedResponseDto) : Prop :=
  r.data.length ≤ r.meta.limit ∧
  r.meta.totalPages = r.meta.total ⌈/⌉ r.meta.limit ∧
  r.meta.hasNext = decide (r.meta.page < r.meta.totalPages) ∧
  r.meta.hasPrev = decide (1 < r.meta.page)

/-! ### Claims -/

/-- A recognisably foreign `PaginatedResponseDto` planted in the cache
under the key `getCountries` computes for the unfiltered first page. -/
def stalePage : PaginatedResponseDto :=
  { success := true, message := "stale", timestamp := "T0",
    meta := ⟨1, 20, 7, 1, false, false⟩, data := [] }

/-- A cache holding `stalePage` under that computed key. -/
def cacheWithStalePage : Cache :=
  cacheSet (fun _ => none) (countriesCacheKey ⟨none, none, none⟩ ⟨1, 20⟩) (.page stalePage)

/-- C1, counterexample.  The claim says the cache is consulted first and
a cached `PageResult` under the computed key is always returned, the
fallback being taken only on a miss.  But `getCountries` tests the
connectivity gate *before* touching the cache: with the store
disconnected and a cached value present under the computed key, the
returned result is the fallback result, not the cached value. -/
theorem C1_counterexample :
    asPage (cacheWithStalePage (countriesCacheKey ⟨none, none, none⟩ ⟨1, 20⟩)) = some stalePage ∧
    (getCountries false [] "T1" ⟨none, none, none⟩ ⟨1, 20⟩ cacheWithStalePage).1 ≠ stalePage := by
  decide

/-- C1, amended.  In connected mode the cache is consulted first and a
hit is returned unchanged (same record, including its embedded
timestamp) with no cache write; in disconnected mode the fallback path
is taken unconditionally — without consulting the cache — and the
fallback result is not cached. -/
theorem C1_amended (db : List CountryDto) (now : String) (filters : CountryFilters)
    (pagination : PaginationOptions) (cache : Cache) :
    (∀ r, asPage (cache (countriesCacheKey filters pagination)) = some r →
        getCountries true db now filters pagination cache = (r, cache, [])) ∧
    getCountries false db now filters pagination cache =
      (getFallbackCountries now filters pagination, cache, []) := by
  constructor
  · intro r hr
    simp only [getCountries, hr, Bool.not_true]
    rfl
  · rfl

/-- C1, witness: the amended theorem applied to a concrete populated
cache in connected mode. -/
theorem C1_witness :
    getCountries true [] "T1" ⟨none, none, none⟩ ⟨1, 20⟩ cacheWithStalePage =
      (stalePage, cacheWithStalePage, []) :=
  (C1_amended [] "T1" ⟨none, none, none⟩ ⟨1, 20⟩ cacheWithStalePage).1 stalePage (by decide)

/-- A cache holding the Canada record under the `US` per-code key. -/
def cacheWithForeignDto : Cache :=
  cacheSet (fun _ => none) (COUNTRY_BY_CODE ++ strUpper "US") (.dto canada)

/-- C6, counterexample.  The claim says every disconnected-mode read
answers from the fixed fallback table.  `getCountryByCode` checks the
cache before the connectivity gate, so with a cached entry under the
code key it answers from the cache even while disconnected: here the
fallback table answers United States for `US`, yet the call returns the
(planted) Canada record. -/
theorem C6_counterexample :
    getFallbackCountryByCode "US" = .ok unitedStates ∧
    (getCountryByCode false [] "US" cacheWithForeignDto).1 = .ok canada ∧
    (Except.ok canada : Except LookupError CountryDto) ≠ .ok unitedStates := by
  decide

/-- C6, amended.  In disconnected mode none of the three operations
ever invokes the cache layer's `set` (their write log is empty and the
cache contents are returned unchanged); `listRecords` always answers
from the fallback table, and `getByCode` / `listContinentSummaries`
answer from the fallback table whenever their key is not cached. -/
theorem C6_amended (db : List CountryDto) (now code : String)
    (filters : CountryFilters) (pagination : PaginationOptions) (cache : Cache) :
    getCountries false db now filters pagination cache =
      (getFallbackCountries now filters pagination, cache, []) ∧
    ((getCountryByCode false db code cache).2.1 = cache ∧
      (getCountryByCode false db code cache).2.2 = [] ∧
      (asDto (cache (COUNTRY_BY_CODE ++ strUpper code)) = none →
        (getCountryByCode false db code cache).1 = getFallbackCountryByCode code)) ∧
    ((getContinents false db now cache).2.1 = cache ∧
      (getContinents false db now cache).2.2 = [] ∧
      (asContinents (cache CONTINENTS_KEY) = none →
        (getContinents false db now cache).1 = getFallbackContinents now)) := by
  refine ⟨rfl, ⟨?_, ?_, ?_⟩, ⟨?_, ?_, ?_⟩⟩
  · cases h : asDto (cache (COUNTRY_BY_CODE ++ strUpper code)) <;>
      simp only [getCountryByCode, h] <;> try rfl
  · cases h : asDto (cache (COUNTRY_BY_CODE ++ strUpper code)) <;>
      simp only [getCountryByCode, h] <;> try rfl
  · intro h
    simp only [getCountryByCode, h]
    rfl
  · cases h : asContinents (cache CONTINENTS_KEY) <;>
      simp only [getContinents, h] <;> try rfl
  · cases h : asContinents (cache CONTINENTS_KEY) <;>
      simp only [getContinents, h] <;> try rfl
  · intro h
    simp only [getContinents, h]
    rfl

/-- C6, witness: the amended theorem applied to the empty cache. -/
theorem C6_witness :
    (getCountryByCode false [] "US" (fun _ => none)).1 = getFallbackCountryByCode "US" :=
  ((C6_amended [] "T" "US" ⟨none, none, none⟩ ⟨1, 20⟩ (fun _ => none)).2.1).2.2 rfl

/-- C9.  `invalidateCache` removes exactly the three fixed aggregate
keys (all-countries, continents, popular) and leaves every other key —
per-code keys and per-filter keys included — bound to exactly the value
it had before. -/
theorem C9_invalidateCache_frame (cache : Cache) :
    invalidateCache cache ALL_COUNTRIES_KEY = none ∧
    invalidateCache cache CONTINENTS_KEY = none ∧
    invalidateCache cache POPULAR_COUNTRIES_KEY = none ∧
    ∀ k, k ≠ ALL_COUNTRIES_KEY → k ≠ CONTINENTS_KEY → k ≠ POPULAR_COUNTRIES_KEY →
      invalidateCache cache k = cache k := by
  refine ⟨?_, ?_, ?_, ?_⟩
  · show (if ALL_COUNTRIES_KEY = POPULAR_COUNTRIES_KEY then none
      else if ALL_COUNTRIES_KEY = CONTINENTS_KEY then none
      else if ALL_COUNTRIES_KEY = ALL_COUNTRIES_KEY then none else cache ALL_COUNTRIES_KEY) = none
    rw [if_neg (by decide), if_neg (by decide), if_pos rfl]
  · show (if CONTINENTS_KEY = POPULAR_COUNTRIES_KEY then none
      else if CONTINENTS_KEY = CONTINENTS_KEY then none
      else if CONTINENTS_KEY = ALL_COUNTRIES_KEY then none else cache CONTINENTS_KEY) = none
    rw [if_neg (by decide), if_pos rfl]
  · show (if POPULAR_COUNTRIES_KEY = POPULAR_COUNTRIES_KEY then none
      else if POPULAR_COUNTRIES_KEY = CONTINENTS_KEY then none
      else if POPULAR_COUNTRIES_KEY = ALL_COUNTRIES_KEY then none
      else cache POPULAR_COUNTRIES_KEY) = none
    rw [if_pos rfl]
  · intro k h1 h2 h3
    show (if k = POPULAR_COUNTRIES_KEY then none
      else if k = CONTINENTS_KEY then none
      else if k = ALL_COUNTRIES_KEY then none else cache k) = cache k
    rw [if_neg h3, if_neg h2, if_neg h1]

/-- A cache with a per-code entry (one of the keys `invalidateCache`
must not touch). -/
def cacheWithCodeEntry : Cache :=
  fun k => if k = "country:code:US" then some (.dto unitedStates) else none

/-- C9, witness: the frame part applied to the `US` per-code key. -/
theorem C9_witness :
    invalidateCache cacheWithCodeEntry "country:code:US" =
      cacheWithCodeEntry "country:code:US" :=
  (C9_invalidateCache_frame cacheWithCodeEntry).2.2.2 "country:code:US"
    (by decide) (by decide) (by decide)

/-- Fallback-path results are internally consistent. -/
theorem getFallbackCountries_metaConsistent (now : String) (f : CountryFilters)
    (p : PaginationOptions) : metaConsistent (getFallbackCountries now f p) := by
  refine ⟨?_, rfl, rfl, rfl⟩
  show (jsSlice (fallbackFiltered f) ((p.page - 1) * p.limit)
      ((p.page - 1) * p.limit + p.limit)).length ≤ p.limit
  simp only [jsSlice, Nat.add_sub_cancel_left]
  exact List.length_take_le _ _

/-- C5.  For every `FilterCriteria` and `PageRequest`, the `PageResult`
returned by `listRecords` satisfies `data.length ≤ limit`,
`totalPages = ceil(total / limit)`, `hasNext = (page < totalPages)` and
`hasPrev = (page > 1)`, on the store-backed path and on the fallback
path alike (and on a cache hit, provided every cached page entry is
itself consistent — which is what the service ever stores). -/
theorem C5_pageResult_consistent (connected : Bool) (db : List CountryDto)
    (now : String) (filters : CountryFilters) (pagination : PaginationOptions)
    (cache : Cache)
    (hGood : ∀ k r, asPage (cache k) = some r → metaConsistent r) :
    metaConsistent (getCountries connected db now filters pagination cache).1 := by
  cases connected with
  | false => exact getFallbackCountries_metaConsistent now filters pagination
  | true =>
    cases h : asPage (cache (countriesCacheKey filters pagination)) with
    | some r =>
      have hres : (getCountries true db now filters pagination cache).1 = r := by
        simp only [getCountries, h, Bool.not_true]
        rfl
      rw [hres]
      exact hGood _ r h
    | none =>
      have hres : (getCountries true db now filters pagination cache).1 =
          { success := true, message := "Countries retrieved successfully",
            timestamp := now,
            meta := { page := pagination.page, limit := pagination.limit,
                      total := (db.filter (matchesWhere filters)).length,
                      totalPages := jsCeilDiv (db.filter (matchesWhere filters)).length
                        pagination.limit,
                      hasNext := decide (pagination.page < jsCeilDiv
                        (db.filter (matchesWhere filters)).length pagination.limit),
                      hasPrev := decide (1 < pagination.page) },
            data := (((sortByName (db.filter (matchesWhere filters))).drop
                ((pagination.page - 1) * pagination.limit)).take
                pagination.limit).map transformToDto } := by
        simp only [getCountries, h, Bool.not_true]
        rfl
      rw [hres]
      refine ⟨?_, rfl, rfl, rfl⟩
      show ((((sortByName (db.filter (matchesWhere filters))).drop
          ((pagination.page - 1) * pagination.limit)).take
          pagination.limit).map transformToDto).length ≤ pagination.limit
      rw [List.length_map]
      exact List.length_take_le _ _

/-- C5, witness: the theorem applied to the empty cache in disconnected
mode. -/
theorem C5_witness :
    metaConsistent (getCountries false [] "T5" ⟨none, none, none⟩ ⟨1, 20⟩ (fun _ => none)).1 :=
  C5_pageResult_consistent false [] "T5" ⟨none, none, none⟩ ⟨1, 20⟩ (fun _ => none)
    (fun _ r h => Option.noConfusion h)

/-- C2, counterexample.  The claim says the page data is sorted
ascending by display name on the fallback path too, but
`getFallbackCountries` never sorts: with no filters, the disconnected
first page is the seed table in its written order, which starts
United States, Canada — not name-sorted. -/
theorem C2_counterexample :
    ¬ List.Sorted (fun a b : CountryDto => strLe a.name b.name = true)
      (getCountries false [] "T2" ⟨none, none, none⟩ ⟨1, 20⟩ (fun _ => none)).1.data := by
  decide

/-- C2, amended.  On the store-backed path (cache miss) the page data
is sorted ascending by display name; on the fallback path the data is
the filtered seed table in seed order, merely sliced — not sorted. -/
theorem C2_amended (db : List CountryDto) (now : String) (filters : CountryFilters)
    (pagination : PaginationOptions) (cache : Cache)
    (hmiss : asPage (cache (countriesCacheKey filters pagination)) = none) :
    List.Sorted (fun a b : CountryDto => strLe a.name b.name = true)
      (getCountries true db now filters pagination cache).1.data ∧
    (getCountries false db now filters pagination cache).1.data =
      jsSlice (fallbackFiltered filters) ((pagination.page - 1) * pagination.limit)
        ((pagination.page - 1) * pagination.limit + pagination.limit) := by
  constructor
  · have hdata : (getCountries true db now filters pagination cache).1.data =
        (((sortByName (db.filter (matchesWhere filters))).drop
            ((pagination.page - 1) * pagination.limit)).take
            pagination.limit).map transformToDto := by
      simp only [getCountries, hmiss, Bool.not_true]
      rfl
    rw [hdata]
    have hsorted : List.Sorted (fun a b : CountryDto => strLe a.name b.name = true)
        (sortByName (db.filter (matchesWhere filters))) :=
      List.sorted_insertionSort (fun a b : CountryDto => strLe a.name b.name = true) _
    have hsub : (((sortByName (db.filter (matchesWhere filters))).drop
        ((pagination.page - 1) * pagination.limit)).take pagination.limit).Sublist
        (sortByName (db.filter (matchesWhere filters))) :=
      (List.take_sublist _ _).trans (List.drop_sublist _ _)
    have htaken := List.Pairwise.sublist hsub hsorted
    exact (List.pairwise_map).mpr htaken
  · rfl

/-- C2, witness: the amended theorem applied to the seed table as store
contents with an empty cache. -/
theorem C2_witness :
    List.Sorted (fun a b : CountryDto => strLe a.name b.name = true)
      (getCountries true getFallbackCountryData "T2b" ⟨none, none, none⟩ ⟨1, 20⟩
        (fun _ => none)).1.data :=
  (C2_amended getFallbackCountryData "T2b" ⟨none, none, none⟩ ⟨1, 20⟩ (fun _ => none) rfl).1

/-- C3, counterexample.  For the observed seven-record seed, the
disconnected continent summaries start with Asia (count 1), not Europe,
and Europe's count is 3, not 1 — the example list in the claim does not
match the observed seed. -/
theorem C3_counterexample :
    (getFallbackContinents "T3").data.head? = some ⟨"Asia", 1⟩ ∧
    (ContinentCount.mk "Asia" 1 ≠ ContinentCount.mk "Europe" 1) ∧
    (getFallbackContinents "T3").data.filter (fun e => e.name == "Europe") =
      [⟨"Europe", 3⟩] := by
  decide

/-- C3, amended.  When the store is disconnected and the summaries are
not cached, `listContinentSummaries` returns the seed table grouped by
continent, counted, and sorted alphabetically — for the observed seed:
Asia 1, Europe 3, North America 2, Oceania 1. -/
theorem C3_amended (db : List CountryDto) (now : String) (cache : Cache)
    (hmiss : asContinents (cache CONTINENTS_KEY) = none) :
    (getContinents false db now cache).1.data =
      [⟨"Asia", 1⟩, ⟨"Europe", 3⟩, ⟨"North America", 2⟩, ⟨"Oceania", 1⟩] ∧
    List.Sorted (fun a b : ContinentCount => strLe a.name b.name = true)
      (getContinents false db now cache).1.data := by
  have h : (getContinents false db now cache).1 = getFallbackContinents now := by
    simp only [getContinents, hmiss]
    rfl
  have hdata : (getFallbackContinents now).data =
      [⟨"Asia", 1⟩, ⟨"Europe", 3⟩, ⟨"North America", 2⟩, ⟨"Oceania", 1⟩] := rfl
  rw [h, hdata]
  exact ⟨rfl, by decide⟩

/-- C3, witness: the amended theorem applied to the empty cache. -/
theorem C3_witness :
    (getContinents false [] "T3b" (fun _ => none)).1.data =
      [⟨"Asia", 1⟩, ⟨"Europe", 3⟩, ⟨"North America", 2⟩, ⟨"Oceania", 1⟩] :=
  (C3_amended [] "T3b" (fun _ => none) rfl).1

/-- A `filters` object written with continent before search. -/
def filtersObjA : JsObj := [("continent", .str "Europe"), ("search", .str "a")]

/-- The same logical filters, written with search before continent. -/
def filtersObjB : JsObj := [("search", .str "a"), ("continent", .str "Europe")]

/-- A `pagination` object for page 1, limit 20. -/
def paginationObj1 : JsObj := [("page", .num 1), ("limit", .num 20)]

/-- C4, counterexample.  `JSON.stringify` follows property insertion
order, so two logically identical filter objects whose properties were
set in different orders serialize to different cache keys — the keys
are not byte-identical as the claim requires. -/
theorem C4_counterexample :
    objToFilters filtersObjA = objToFilters filtersObjB ∧
    filteredCacheKey filtersObjA paginationObj1 ≠ filteredCacheKey filtersObjB paginationObj1 := by
  decide

/-- C4, amended.  Keys are byte-identical for logically identical
combinations only when both objects present their properties in the
fixed declaration order (continent, region, search) — the order every
construction site in this repository uses; under that proviso equal
logical content yields equal keys. -/
theorem C4_amended (o1 o2 pg : JsObj)
    (h1 : o1 = filtersToObj (objToFilters o1))
    (h2 : o2 = filtersToObj (objToFilters o2))
    (heq : objToFilters o1 = objToFilters o2) :
    filteredCacheKey o1 pg = filteredCacheKey o2 pg := by
  rw [h1, h2, heq]

/-- Canonical-order filters built through the record. -/
def filtersObjC : JsObj := filtersToObj ⟨some "Europe", none, some "a"⟩

/-- The same canonical-order filters written out literally. -/
def filtersObjD : JsObj :=
  [("continent", .str "Europe"), ("region", .undef), ("search", .str "a")]

/-- C4, witness: the amended theorem applied to two canonical-order
objects with the same logical content. -/
theorem C4_witness :
    filteredCacheKey filtersObjC paginationObj1 = filteredCacheKey filtersObjD paginationObj1 :=
  C4_amended filtersObjC filtersObjD paginationObj1 (by decide) (by decide) (by decide)

/-- C7.  `getByCode` is insensitive to case and to which code field
matches: under a cache miss for the looked-up key, any casing of a
record's 2-letter or 3-letter code returns that record, on the
connected path (store rows, codes unique) and the disconnected path
(fallback table) alike. -/
theorem C7_code_equivalence (connected : Bool) (db : List CountryDto)
    (cache : Cache) (r : CountryDto) (s : String)
    (hmiss : asDto (cache (COUNTRY_BY_CODE ++ strUpper s)) = none)
    (hmem : r ∈ (if connected then db else getFallbackCountryData))
    (huniq : ∀ x ∈ (if connected then db else getFallbackCountryData),
      strLower x.code = strLower s ∨ strLower x.code3 = strLower s → x = r)
    (hcase : strLower s = strLower r.code ∨ strLower s = strLower r.code3) :
    (getCountryByCode connected db s cache).1 = .ok r := by
  cases connected with
  | true =>
    have hfind : db.find? (fun c =>
        strLower c.code == strLower (strUpper s) ||
        strLower c.code3 == strLower (strUpper s)) = some r := by
      refine find?_eq_some_of_unique hmem ?_ ?_
      · show (strLower r.code == strLower (strUpper s) ||
          strLower r.code3 == strLower (strUpper s)) = true
        rw [strLower_strUpper]
        rcases hcase with hc | hc
        · exact Bool.or_eq_true_iff.mpr (Or.inl (beq_iff_eq.mpr hc.symm))
        · exact Bool.or_eq_true_iff.mpr (Or.inr (beq_iff_eq.mpr hc.symm))
      · intro x hx hpx
        simp only [strLower_strUpper, Bool.or_eq_true, beq_iff_eq] at hpx
        exact huniq x hx hpx
    simp only [getCountryByCode, hmiss, hfind]
    rfl
  | false =>
    have hfind : getFallbackCountryData.find? (fun c =>
        strLower c.code == strLower s || strLower c.code3 == strLower s) = some r := by
      refine find?_eq_some_of_unique hmem ?_ ?_
      · show (strLower r.code == strLower s || strLower r.code3 == strLower s) = true
        rcases hcase with hc | hc
        · exact Bool.or_eq_true_iff.mpr (Or.inl (beq_iff_eq.mpr hc.symm))
        · exact Bool.or_eq_true_iff.mpr (Or.inr (beq_iff_eq.mpr hc.symm))
      · intro x hx hpx
        simp only [Bool.or_eq_true, beq_iff_eq] at hpx
        exact huniq x hx hpx
    simp only [getCountryByCode, hmiss, getFallbackCountryByCode, hfind]
    rfl

/-- C7, witness: `uS` and `Usa` both return the United States record
from the fallback table with an empty cache. -/
theorem C7_witness :
    (getCountryByCode false [] "uS" (fun _ => none)).1 = .ok unitedStates ∧
    (getCountryByCode false [] "Usa" (fun _ => none)).1 = .ok unitedStates :=
  ⟨C7_code_equivalence false [] (fun _ => none) unitedStates "uS" rfl
      (by decide) (by decide) (by decide),
    C7_code_equivalence false [] (fun _ => none) unitedStates "Usa" rfl
      (by decide) (by decide) (by decide)⟩

/-- C8.  Under a cache miss for the looked-up key, `getByCode` fails
with `NotFound` exactly when no record's 2-letter or 3-letter code
matches the given code case-insensitively — on the connected path
against the store rows, on the disconnected path against the fallback
table. -/
theorem C8_notFound_iff (connected : Bool) (db : List CountryDto) (cache : Cache)
    (s : String)
    (hmiss : asDto (cache (COUNTRY_BY_CODE ++ strUpper s)) = none) :
    ((getCountryByCode connected db s cache).1 = .error (.notFound s) ↔
      ∀ x ∈ (if connected then db else getFallbackCountryData),
        strLower x.code ≠ strLower s ∧ strLower x.code3 ≠ strLower s) := by
  cases connected with
  | true =>
    cases hf : db.find? (fun c =>
        strLower c.code == strLower (strUpper s) ||
        strLower c.code3 == strLower (strUpper s)) with
    | some c =>
      have hresult : (getCountryByCode true db s cache).1 = .ok (transformToDto c) := by
        simp only [getCountryByCode, hmiss, hf]
        rfl
      rw [hresult]
      constructor
      · intro hcontra
        exact Except.noConfusion hcontra
      · intro hall
        exfalso
        have hmemc := List.mem_of_find?_eq_some hf
        have hpc := List.find?_some hf
        simp only [strLower_strUpper, Bool.or_eq_true, beq_iff_eq] at hpc
        rcases hpc with h | h
        · exact (hall c hmemc).1 h
        · exact (hall c hmemc).2 h
    | none =>
      have hresult : (getCountryByCode true db s cache).1 = .error (.notFound s) := by
        simp only [getCountryByCode, hmiss, hf]
        rfl
      rw [hresult]
      constructor
      · intro _ x hx
        have hnp := List.find?_eq_none.mp hf x hx
        simp only [strLower_strUpper, Bool.or_eq_true, beq_iff_eq] at hnp
        push_neg at hnp
        exact hnp
      · intro _
        rfl
  | false =>
    cases hf : getFallbackCountryData.find? (fun c =>
        strLower c.code == strLower s || strLower c.code3 == strLower s) with
    | some c =>
      have hresult : (getCountryByCode false db s cache).1 = .ok c := by
        simp only [getCountryByCode, hmiss, getFallbackCountryByCode, hf]
        rfl
      rw [hresult]
      constructor
      · intro hcontra
        exact Except.noConfusion hcontra
      · intro hall
        exfalso
        have hmemc := List.mem_of_find?_eq_some hf
        have hpc := List.find?_some hf
        simp only [Bool.or_eq_true, beq_iff_eq] at hpc
        rcases hpc with h | h
        · exact (hall c hmemc).1 h
        · exact (hall c hmemc).2 h
    | none =>
      have hresult : (getCountryByCode false db s cache).1 = .error (.notFound s) := by
        simp only [getCountryByCode, hmiss, getFallbackCountryByCode, hf]
        rfl
      rw [hresult]
      constructor
      · intro _ x hx
        have hnp := List.find?_eq_none.mp hf x hx
        simp only [Bool.or_eq_true, beq_iff_eq] at hnp
        push_neg at hnp
        exact hnp
      · intro _
        rfl

/-- C8, witness: `ZZZZZ` misses every fallback record, so the call
fails with `NotFound`. -/
theorem C8_witness :
    (getCountryByCode false [] "ZZZZZ" (fun _ => none)).1 = .error (.notFound "ZZZZZ") :=
  (C8_notFound_iff false [] (fun _ => none) "ZZZZZ" rfl).mpr (by decide)

/-! ### A region-free variant of the service, used to state that the
region filter is unreachable through the HTTP interface (C10).  These
definitions repeat `getCountries` with the region dimension deleted
outright; the claim is settled by proving the controller's behaviour
equal to this variant. -/

/-- Filters as the controller builds them: `\x7b continent, search \x7d`. -/
structure CountryFiltersNoRegion where
  continent : Option String
  search : Option String
deriving DecidableEq, Repr

/-- The controller's filters object (continent, search — no region
property at all). -/
def filtersNoRegionToObj (f : CountryFiltersNoRegion) : JsObj :=
  [("continent", jsOptStr f.continent), ("search", jsOptStr f.search)]

/-- `matchesWhere` with the region clause deleted. -/
def matchesWhereNoRegion (f : CountryFiltersNoRegion) (c : CountryDto) : Bool :=
  (if isTruthy f.continent then
      strLower c.continent == strLower (f.continent.getD "")
    else true) &&
  (if isTruthy f.search then
      (strIncludes (strLower c.name) (strLower (f.search.getD "")) ||
       strIncludes (strLower c.code) (strLower (f.search.getD "")) ||
       strIncludes (strLower c.code3) (strLower (f.search.getD "")))
    else true)

/-- `fallbackFiltered` with the region filter deleted. -/
def fallbackFilteredNoRegion (f : CountryFiltersNoRegion) : List CountryDto :=
  let l1 := if isTruthy f.continent then
      getFallbackCountryData.filter (fun country =>
        strLower country.continent == strLower (f.continent.getD ""))
    else getFallbackCountryData
  if isTruthy f.search then
      l1.filter (fun country =>
        strIncludes (strLower country.name) (strLower (f.search.getD "")) ||
        strIncludes (strLower country.code) (strLower (f.search.getD "")) ||
        strIncludes (strLower country.code3) (strLower (f.search.getD "")))
    else l1

/-- `getFallbackCountries` with the region filter deleted. -/
def getFallbackCountriesNoRegion (now : String) (f : CountryFiltersNoRegion)
    (pagination : PaginationOptions) : PaginatedResponseDto :=
  let filteredCountries := fallbackFilteredNoRegion f
  let total := filteredCountries.length
  let totalPages := jsCeilDiv total pagination.limit
  let startIndex := (pagination.page - 1) * pagination.limit
  let endIndex := startIndex + pagination.limit
  let paginatedCountries := jsSlice filteredCountries startIndex endIndex
  { success := true,
    message := "Countries retrieved successfully (fallback data)",
    timestamp := now,
    meta := { page := pagination.page, limit := pagination.limit,
              total := total, totalPages := totalPages,
              hasNext := decide (pagination.page < totalPages),
              hasPrev := decide (1 < pagination.page) },
    data := paginatedCountries }

/-- `getCountries` with the region dimension deleted. -/
def getCountriesNoRegion (connected : Bool) (db : List CountryDto) (now : String)
    (f : CountryFiltersNoRegion) (pagination : PaginationOptions)
    (cache : Cache) : PaginatedResponseDto × Cache × List String :=
  if !connected then
    (getFallbackCountriesNoRegion now f pagination, cache, [])
  else
    let cacheKey := filteredCacheKey (filtersNoRegionToObj f) (paginationToObj pagination)
    match asPage (cache cacheKey) with
    | some cached => (cached, cache, [])
    | none =>
      let matching := db.filter (matchesWhereNoRegion f)
      let total := matching.length
      let countries :=
        ((sortByName matching).drop ((pagination.page - 1) * pagination.limit)).take
          pagination.limit
      let countryDtos := countries.map transformToDto
      let totalPages := jsCeilDiv total pagination.limit
      let result : PaginatedResponseDto :=
        { success := true, message := "Countries retrieved successfully",
          timestamp := now,
          meta := { page := pagination.page, limit := pagination.limit,
                    total := total, totalPages := totalPages,
                    hasNext := decide (pagination.page < totalPages),
                    hasPrev := decide (1 < pagination.page) },
          data := countryDtos }
      (result, cacheSet cache cacheKey (.page result), [cacheKey])

/-- C10.  The `GET /countries` controller forwards only `continent` and
`search` (its filters object has no region property, i.e.
`region = none`), and with `region = none` the service — cache key,
store predicate, fallback filtering, results and cache effects — is
exactly the region-free service: the region (substring) filter is
unreachable through the HTTP interface and has no effect on the
response. -/
theorem C10_region_unreachable (connected : Bool) (db : List CountryDto)
    (now : String) (page limit : Nat) (continent search : Option String)
    (cache : Cache) :
    controllerGetCountries connected db now page limit continent search cache =
      getCountriesNoRegion connected db now ⟨continent, search⟩ ⟨page, limit⟩ cache := by
  have hkey : countriesCacheKey ⟨continent, none, search⟩ ⟨page, limit⟩ =
      filteredCacheKey (filtersNoRegionToObj ⟨continent, search⟩)
        (paginationToObj ⟨page, limit⟩) := by
    cases continent <;> cases search <;> rfl
  have hw : matchesWhere ⟨continent, none, search⟩ =
      matchesWhereNoRegion ⟨continent, search⟩ := by
    funext x
    simp [matchesWhere, matchesWhereNoRegion, isTruthy]
  have hfb : getFallbackCountries now ⟨continent, none, search⟩ ⟨page, limit⟩ =
      getFallbackCountriesNoRegion now ⟨continent, search⟩ ⟨page, limit⟩ := rfl
  simp only [controllerGetCountries, getCountries, getCountriesNoRegion, hkey, hw, hfb]
